import Mathlib

/-!
Shallow embedding of `src/isbn_search.py` (ISBN resolution / reconciliation tool).

The remote search service is modelled as an environment function mapping
(query index, attempt index) to a response; everything else is translated
directly from the Python source.  Python strings map to `String`, `None`
cells from pandas map to `Option String`, Python `str in str` containment
maps to `pyIn`.
-/

namespace IsbnSearch

/-- Python `needle` is a leading segment of `hay` (char lists). -/
def leadEq : List Char → List Char → Bool
  | [], _ => true
  | _ :: _, [] => false
  | a :: as, b :: bs => a == b && leadEq as bs

/-- Python substring containment `needle in hay` on char lists. -/
def hasSub (needle : List Char) : List Char → Bool
  | [] => needle.isEmpty
  | c :: rest => leadEq needle (c :: rest) || hasSub needle rest

/-- Python `needle in hay` for strings. -/
def pyIn (needle hay : String) : Bool :=
  hasSub needle.data hay.data

/-- Python `str.lower()` (per-character lowering; the inputs here are
markup-stripped titles, authors, publishers). -/
def pyLower (s : String) : String :=
  String.mk (s.data.map Char.toLower)

/-- Python `str.strip()` on char lists: drop whitespace at both ends. -/
def stripChars (cs : List Char) : List Char :=
  ((cs.dropWhile Char.isWhitespace).reverse.dropWhile Char.isWhitespace).reverse

/-- Python `str.strip()`. -/
def pyStrip (s : String) : String :=
  String.mk (stripChars s.data)

/-- If `pat` leads `cs`, return the remainder of `cs` after it. -/
def stripLead : List Char → List Char → Option (List Char)
  | [], cs => some cs
  | _ :: _, [] => none
  | a :: as, b :: bs => if a == b then stripLead as bs else none

/-- Fuelled scan for Python `str.replace(pat, rep)` (leftmost,
non-overlapping); one unit of fuel per scanned position suffices since the
patterns used (`"<b>"`, `"</b>"`) are non-empty. -/
def replaceLoop (pat rep : List Char) : Nat → List Char → List Char
  | 0, cs => cs
  | _, [] => []
  | fuel + 1, c :: rest =>
    match stripLead pat (c :: rest) with
    | some remainder => rep ++ replaceLoop pat rep fuel remainder
    | none => c :: replaceLoop pat rep fuel rest

/-- Python `s.replace(pat, rep)`. -/
def pyReplace (s pat rep : String) : String :=
  String.mk (replaceLoop pat.data rep.data s.data.length s.data)

/-- Python `str.split()` with no argument: split on whitespace runs,
dropping empty tokens; `acc` holds the current token reversed. -/
def splitWsAux : List Char → List Char → List (List Char)
  | [], acc => if acc = [] then [] else [acc.reverse]
  | c :: rest, acc =>
    if c.isWhitespace then
      if acc = [] then splitWsAux rest [] else acc.reverse :: splitWsAux rest []
    else
      splitWsAux rest (c :: acc)

/-- `re.search(r"\d{4}", s)`: the first position at which four consecutive
decimal digits start; returns those four characters. -/
def first4Digits : List Char → Option (List Char)
  | [] => none
  | c1 :: rest =>
    match rest with
    | c2 :: c3 :: c4 :: _ =>
      if c1.isDigit && c2.isDigit && c3.isDigit && c4.isDigit then
        some [c1, c2, c3, c4]
      else
        first4Digits rest
    | _ => none

/-- `extract_year` (src lines 12-20): `pd.isnull` is modelled by `Option`;
the input is stringified/stripped and searched for `\d{4}`. -/
def extract_year (pubdate : Option String) : String :=
  match pubdate with
  | none => ""
  | some s =>
    match first4Digits (stripChars s.data) with
    | some cs => String.mk cs
    | none => ""

/-- `extract_isbn13` (src lines 144-160): split on whitespace, return the
first token that is exactly 13 decimal digits. -/
def extract_isbn13 (isbn_str : String) : Option String :=
  if isbn_str = "" then none
  else
    let parts := splitWsAux isbn_str.data []
    (parts.find? (fun p => p.length == 13 && p.all Char.isDigit)).map String.mk

/-- One result item of the search service (JSON `items` entry), raw as
returned (title may still carry `<b>`/`</b>` markup). -/
structure Item where
  title : String
  author : String
  publisher : String
  pubdate : String
  price : String
  isbn : String
deriving DecidableEq

/-- Book info dict built by `get_book_info_by_isbn13` from the first item
(src lines 56-63). -/
structure BookInfo where
  title : String
  author : String
  publisher : String
  pubdate : String
  price : String
  isbn : String
deriving DecidableEq

def mk_book_info (item : Item) : BookInfo :=
  { title := pyStrip (pyReplace (pyReplace item.title "<b>" "") "</b>" "")
    author := pyStrip item.author
    publisher := pyStrip item.publisher
    pubdate := pyStrip item.pubdate
    price := pyStrip item.price
    isbn := pyStrip item.isbn }

/-- One HTTP response of the search service, as discriminated by the source:
status 200 (with parsed `items`), status 429, any other status, or a
`requests` exception. -/
inductive Resp where
  | ok (items : List Item)
  | rateLimited
  | otherError
  | netError
deriving DecidableEq

/-- The `while retries < max_retries` loop of `get_book_info_by_isbn13`
(src lines 48-75), with `env attempt` the response to the attempt-th request.
Falling out of the loop returns `none` (src line 75). -/
def book_info_loop (env : Nat → Resp) : Nat → Nat → Option BookInfo
  | _, 0 => none
  | attempt, n + 1 =>
    match env attempt with
    | Resp.ok [] => none
    | Resp.ok (item :: _) => some (mk_book_info item)
    | Resp.rateLimited => book_info_loop env (attempt + 1) n
    | Resp.otherError => none
    | Resp.netError => none

/-- `get_book_info_by_isbn13` (src lines 23-75); the query/headers only feed
the remote call, which is abstracted into `env`. -/
def get_book_info_by_isbn13 (env : Nat → Resp) (max_retries : Nat) : Option BookInfo :=
  book_info_loop env 0 max_retries

/-- The candidate-match condition of the cascade (src lines 110-120): the
wanted fields must be substrings of the normalized candidate fields and the
wanted year must equal the candidate's extracted year. -/
def candidate_matches (title author publisher pub_year : String) (item : Item) : Bool :=
  let item_title := pyLower (pyStrip (pyReplace (pyReplace item.title "<b>" "") "</b>" ""))
  let item_author := pyLower (pyStrip item.author)
  let item_publisher := pyLower (pyStrip item.publisher)
  let item_pub_year := extract_year (some (pyStrip item.pubdate))
  pyIn (pyLower title) item_title &&
  pyIn (pyLower author) item_author &&
  pyIn (pyLower publisher) item_publisher &&
  pub_year == item_pub_year

/-- The `for item in items` scan (src lines 110-125): return the first item
that matches AND whose isbn extraction is truthy; otherwise fall through. -/
def scan_items (title author publisher pub_year : String) : List Item → Option String
  | [] => none
  | item :: rest =>
    if candidate_matches title author publisher pub_year item then
      match extract_isbn13 item.isbn with
      | some s => some s
      | none => scan_items title author publisher pub_year rest
    else
      scan_items title author publisher pub_year rest

/-- Handling of a non-empty `items` list (src lines 108-130): scan for a
match, else return the first item's extracted isbn (possibly `none`). -/
def process_items (title author publisher pub_year : String) (items : List Item) :
    Option String :=
  match scan_items title author publisher pub_year items with
  | some s => some s
  | none =>
    match items with
    | [] => none
    | first :: _ => extract_isbn13 first.isbn

/-- Outcome of the per-query retry loop: either the function returns a value
(`done`), or control falls to the next query (`next`: zero items, or the
while loop exhausted its retries). -/
inductive QueryOutcome where
  | done (r : Option String)
  | next
deriving DecidableEq

/-- The `while retries < max_retries` loop of one query of the cascade
(src lines 101-140).  `envq attempt` is the response to the attempt-th request
for this query.  Also returns the list of attempt indices actually issued
(the network-call trace). -/
def run_retries (envq : Nat → Resp) (title author publisher pub_year : String) :
    Nat → Nat → QueryOutcome × List Nat
  | _, 0 => (QueryOutcome.next, [])
  | attempt, n + 1 =>
    match envq attempt with
    | Resp.ok [] => (QueryOutcome.next, [attempt])
    | Resp.ok (first :: tl) =>
      (QueryOutcome.done (process_items title author publisher pub_year (first :: tl)),
        [attempt])
    | Resp.rateLimited =>
      ((run_retries envq title author publisher pub_year (attempt + 1) n).1,
        attempt :: (run_retries envq title author publisher pub_year (attempt + 1) n).2)
    | Resp.otherError => (QueryOutcome.done none, [attempt])
    | Resp.netError => (QueryOutcome.done none, [attempt])

/-- The `for query in query_combinations` loop (src lines 97-142), over the
remaining query indices.  `env qi attempt` is the response to the attempt-th
request of query `qi`.  Returns the function result and the trace of
(query, attempt) network calls. -/
def run_queries (env : Nat → Nat → Resp) (title author publisher pub_year : String)
    (max_retries : Nat) : List Nat → Option String × List (Nat × Nat)
  | [] => (none, [])
  | qi :: rest =>
    match run_retries (env qi) title author publisher pub_year 0 max_retries with
    | (QueryOutcome.done r, tr) => (r, tr.map (fun k => (qi, k)))
    | (QueryOutcome.next, tr) =>
      ((run_queries env title author publisher pub_year max_retries rest).1,
        tr.map (fun k => (qi, k)) ++
          (run_queries env title author publisher pub_year max_retries rest).2)

/-- The four progressively looser query strings (src lines 90-95); query
index `i` of `run_queries` stands for entry `i` of this list. -/
def query_combinations (title author publisher pub_year : String) : List String :=
  [title ++ " " ++ author ++ " " ++ publisher ++ " " ++ pub_year,
   title ++ " " ++ author,
   title ++ " " ++ publisher,
   title]

/-- `get_isbn13_from_title_author_pub` (src lines 78-142). -/
def get_isbn13_from_title_author_pub (env : Nat → Nat → Resp)
    (title author publisher pub_year : String) (max_retries : Nat) :
    Option String × List (Nat × Nat) :=
  run_queries env title author publisher pub_year max_retries [0, 1, 2, 3]

/-- Candidate Matcher as worded after amendment: one-directional containment
(wanted field contained in the candidate field), author/publisher explicitly
skipped when the wanted field is empty, year compared by exact equality. -/
def candidate_matches_spec (title author publisher pub_year : String) (item : Item) :
    Bool :=
  let item_title := pyLower (pyStrip (pyReplace (pyReplace item.title "<b>" "") "</b>" ""))
  let item_author := pyLower (pyStrip item.author)
  let item_publisher := pyLower (pyStrip item.publisher)
  let item_pub_year := extract_year (some (pyStrip item.pubdate))
  pyIn (pyLower title) item_title &&
  (author == "" || pyIn (pyLower author) item_author) &&
  (publisher == "" || pyIn (pyLower publisher) item_publisher) &&
  pub_year == item_pub_year

/-- `str(cell).strip() if not pd.isnull(cell) else ''` for a spreadsheet cell. -/
def normCell : Option String → String
  | none => ""
  | some s => pyStrip s

/-- One input row of the convert workflow (feature 1); cells may be null. -/
structure ConvertRow where
  title : Option String
  author : Option String
  publisher : Option String
  pubYear : Option String
deriving DecidableEq

/-- Linear lookup in the `isbn_cache` dict, newest entry first. -/
def assocFind :
    List ((String × String × String × String) × Option String) →
    String × String × String × String → Option (Option String)
  | [], _ => none
  | (k, v) :: rest, key => if k = key then some v else assocFind rest key

/-- Rendering of a resolution outcome into the ISBN column
(src lines 199-202): the isbn13 if truthy, else the "no info" marker. -/
def renderIsbn : Option String → String
  | some s => s
  | none => "정보 없음"

/-- The row loop of `run_feature_1` (src lines 180-204): per row, skip when
the title is empty, else consult the cache keyed on the normalized
(title, author, publisher, year) tuple and resolve on a miss.  The resolver
argument stands for `get_isbn13_from_title_author_pub` with its network
environment.  Returns the ISBN-column outputs in row order and the list of
cache keys on which the resolver was actually invoked. -/
def feature1_loop (resolver : String → String → String → String → Option String) :
    List ConvertRow → List ((String × String × String × String) × Option String) →
    List String × List (String × String × String × String)
  | [], _ => ([], [])
  | row :: rest, cache =>
    let title := normCell row.title
    let author := normCell row.author
    let publisher := normCell row.publisher
    let year := extract_year row.pubYear
    if title = "" then
      let r := feature1_loop resolver rest cache
      ("도서명 없음" :: r.1, r.2)
    else
      let key := (title, author, publisher, year)
      match assocFind cache key with
      | some isbn13 =>
        let r := feature1_loop resolver rest cache
        (renderIsbn isbn13 :: r.1, r.2)
      | none =>
        let isbn13 := resolver title author publisher year
        let r := feature1_loop resolver rest ((key, isbn13) :: cache)
        (renderIsbn isbn13 :: r.1, key :: r.2)

/-- `run_feature_1`'s batch processing, starting from the empty cache. -/
def run_feature_1 (resolver : String → String → String → String → Option String)
    (rows : List ConvertRow) :
    List String × List (String × String × String × String) :=
  feature1_loop resolver rows []

/-- What one convert row's ISBN column ends up as, as a function of the row
alone (used to state that the cache is semantically transparent). -/
def feature1_row_out (resolver : String → String → String → String → Option String)
    (row : ConvertRow) : String :=
  if normCell row.title = "" then "도서명 없음"
  else
    renderIsbn (resolver (normCell row.title) (normCell row.author)
      (normCell row.publisher) (extract_year row.pubYear))

/-- Resolver applied to the components of a cache key. -/
def resolveKey (resolver : String → String → String → String → Option String)
    (k : String × String × String × String) : Option String :=
  resolver k.1 k.2.1 k.2.2.1 k.2.2.2

/-- One input row of the verify workflow (feature 2); cells may be null. -/
structure VerifyRow where
  isbn10 : Option String
  isbn13 : Option String
  title : Option String
  pubdate : Option String
  publisher : Option String
  author : Option String
  price : Option String
deriving DecidableEq

/-- The outputs written for one verify row: the 일치여부 column, the
불일치_항목 column, and whether the remote lookup was issued for this row. -/
structure Feature2Out where
  match_col : String
  mismatch_col : String
  network : Bool
deriving DecidableEq

/-- The `mismatch_list` construction (src lines 280-292), in source order:
도서명 (title), 저자 (author), 출판사 (publisher), 출간연도 (year),
정가 (price). -/
def mismatch_fields (o_title o_author o_publisher o_pubdate o_price
    api_title api_author api_publisher api_pubdate api_price : String) : List String :=
  (if o_title != "" && !(pyIn o_title api_title) && !(pyIn api_title o_title)
    then ["도서명"] else []) ++
  (if o_author != "" && !(pyIn o_author api_author) && !(pyIn api_author o_author)
    then ["저자"] else []) ++
  (if o_publisher != "" && !(pyIn o_publisher api_publisher) &&
      !(pyIn api_publisher o_publisher)
    then ["출판사"] else []) ++
  (if o_pubdate != "" && o_pubdate != api_pubdate then ["출간연도"] else []) ++
  (if o_price != "" && o_price != api_price then ["정가"] else [])

/-- `mismatch_fields` applied the way `run_feature_2` applies it to a row and
a fetched book info (src lines 266-292). -/
def row_mismatches (row : VerifyRow) (bi : BookInfo) : List String :=
  mismatch_fields (pyLower (normCell row.title)) (pyLower (normCell row.author))
    (pyLower (normCell row.publisher)) (extract_year (some (normCell row.pubdate)))
    (normCell row.price)
    (pyLower bi.title) (pyLower bi.author) (pyLower bi.publisher)
    (extract_year (some bi.pubdate)) bi.price

/-- The body of `run_feature_2`'s row loop (src lines 240-298).  `lookup`
stands for `get_book_info_by_isbn13` together with its network environment;
the third output field records whether it was consulted. -/
def run_feature_2_row (lookup : String → Option BookInfo) (row : VerifyRow) :
    Feature2Out :=
  let original_isbn10 := normCell row.isbn10
  let original_isbn13 := normCell row.isbn13
  let original_title := normCell row.title
  let original_author := normCell row.author
  let original_publisher := normCell row.publisher
  let original_price := normCell row.price
  let original_pubdate := normCell row.pubdate
  if original_isbn13 = "" ∨ original_isbn13.length < 13 then
    { match_col := "검색 불가(ISBN13 없음)", mismatch_col := "ISBN13 미입력",
      network := false }
  else
    match lookup original_isbn13 with
    | none =>
      { match_col := "검색 실패", mismatch_col := "검색 결과 없음", network := true }
    | some book_info =>
      let ml := mismatch_fields (pyLower original_title) (pyLower original_author)
        (pyLower original_publisher) (extract_year (some original_pubdate))
        original_price
        (pyLower book_info.title) (pyLower book_info.author)
        (pyLower book_info.publisher)
        (extract_year (some book_info.pubdate)) book_info.price
      if ml = [] then
        { match_col := "일치", mismatch_col := "", network := true }
      else
        { match_col := "불일치", mismatch_col := String.intercalate "," ml,
          network := true }

/-! Concrete fixtures used by counterexamples and witnesses. -/

/-- An item that matches the wanted record `("abc", "", "", "")` but whose
isbn field contains no 13-digit token. -/
def item_abc_no_isbn : Item := Item.mk "abc" "" "" "" "" ""

/-- An item that matches the wanted record `("abc", "", "", "")` and carries
a 13-digit isbn. -/
def item_abc_isbn : Item := Item.mk "abc" "" "" "" "" "9781234567897"

/-- Environment returning both items above for every request. -/
def env_c2 : Nat → Nat → Resp := fun _ _ => Resp.ok [item_abc_no_isbn, item_abc_isbn]

/-- An item that does not match the wanted record `("abc", "", "", "")` but
carries a 10-digit and a 13-digit isbn token. -/
def item_zzz : Item := Item.mk "zzz" "" "" "" "" "1234567890 9791111111111"

/-- Environment whose first query returns the non-matching item and whose
other queries return zero items. -/
def env_c3 : Nat → Nat → Resp :=
  fun qi _ => if qi = 0 then Resp.ok [item_zzz] else Resp.ok []

/-- Environment answering every request with HTTP 429. -/
def env_rl : Nat → Resp := fun _ => Resp.rateLimited

/-- Environment answering every request with HTTP 200 and zero items. -/
def env_empty : Nat → Resp := fun _ => Resp.ok []

/-- Lookup that finds nothing (stands for `get_book_info_by_isbn13`
returning `None`). -/
def lookup_none : String → Option BookInfo := fun _ => none

/-- Verify row whose 13-digit identifier field is the 3-character `"123"`. -/
def row_c7 : VerifyRow :=
  VerifyRow.mk (some "0123456789") (some "123") (some "Foo") none none none none

/-- Verify row: original `{title: "Foo", price: "10000"}` with a valid-length
identifier. -/
def row_foo : VerifyRow :=
  VerifyRow.mk (some "1234567890") (some "9791234567893") (some "Foo") none none none
    (some "10000")

/-- Canonical record `{title: "Foo Bar", price: "12000"}` fetched for
`row_foo`. -/
def bi_foo : BookInfo := BookInfo.mk "Foo Bar" "" "" "" "12000" ""

/-- Lookup returning `bi_foo` for every identifier. -/
def lookup_foo : String → Option BookInfo := fun _ => some bi_foo

/-- Four consecutive decimal digits start at index `i` of `cs` (used to state
what `re.search(r"\d{4}")` finds). -/
def fourDigitsAt : List Char → Nat → Bool
  | c1 :: c2 :: c3 :: c4 :: _, 0 => c1.isDigit && c2.isDigit && c3.isDigit && c4.isDigit
  | _ :: rest, i + 1 => fourDigitsAt rest i
  | _, _ => false

/-! Helper lemmas. -/

lemma hasSub_nil (l : List Char) : hasSub [] l = true := by
  induction l with
  | nil => rfl
  | cons c rest ih => simp [hasSub, leadEq]

lemma pyIn_empty (s : String) : pyIn "" s = true := hasSub_nil s.data

lemma pyLower_empty : pyLower "" = "" := rfl

lemma scan_items_none (t a p y : String) :
    ∀ l : List Item, (∀ it ∈ l, candidate_matches t a p y it = false) →
      scan_items t a p y l = none := by
  intro l
  induction l with
  | nil => intro _; rfl
  | cons i rest ih =>
    intro h
    have hi : candidate_matches t a p y i = false := h i (List.mem_cons_self i rest)
    simp only [scan_items, hi, Bool.false_eq_true, if_false]
    exact ih fun it hit => h it (List.mem_cons_of_mem i hit)

lemma run_retries_ok_cons (envq : Nat → Resp) (t a p y : String) (n : Nat)
    (first : Item) (tl : List Item) (h : envq 0 = Resp.ok (first :: tl)) :
    run_retries envq t a p y 0 (n + 1) =
      (QueryOutcome.done (process_items t a p y (first :: tl)), [0]) := by
  simp [run_retries, h]

lemma run_retries_ok_nil (envq : Nat → Resp) (t a p y : String) (n : Nat)
    (h : envq 0 = Resp.ok []) :
    run_retries envq t a p y 0 (n + 1) = (QueryOutcome.next, [0]) := by
  simp [run_retries, h]

lemma run_retries_rl_next (envq : Nat → Resp) (t a p y : String) :
    ∀ remaining attempt,
      (∀ k, k < remaining → envq (attempt + k) = Resp.rateLimited) →
      (run_retries envq t a p y attempt remaining).1 = QueryOutcome.next := by
  intro remaining
  induction remaining with
  | zero => intro attempt _; rfl
  | succ n ih =>
    intro attempt h
    have h0 : envq attempt = Resp.rateLimited := by simpa using h 0 n.succ_pos
    simp only [run_retries, h0]
    exact ih (attempt + 1) fun k hk => by
      have e : attempt + 1 + k = attempt + (k + 1) := by omega
      rw [e]
      exact h (k + 1) (by omega)

lemma book_info_loop_rl (env : Nat → Resp) :
    ∀ remaining attempt,
      (∀ k, k < remaining → env (attempt + k) = Resp.rateLimited) →
      book_info_loop env attempt remaining = none := by
  intro remaining
  induction remaining with
  | zero => intro attempt _; rfl
  | succ n ih =>
    intro attempt h
    have h0 : env attempt = Resp.rateLimited := by simpa using h 0 n.succ_pos
    simp only [book_info_loop, h0]
    exact ih (attempt + 1) fun k hk => by
      have e : attempt + 1 + k = attempt + (k + 1) := by omega
      rw [e]
      exact h (k + 1) (by omega)

lemma fourDigitsAt_nil (i : Nat) : fourDigitsAt [] i = false := by
  cases i <;> rfl

lemma fourDigitsAt_succ (c : Char) (cs : List Char) (i : Nat) :
    fourDigitsAt (c :: cs) (i + 1) = fourDigitsAt cs i := by
  rcases cs with _ | ⟨a, _ | ⟨b, _ | ⟨d, e⟩⟩⟩ <;> rfl

lemma fourDigitsAt_short :
    ∀ cs : List Char, cs.length < 4 → ∀ i, fourDigitsAt cs i = false := by
  intro cs
  induction cs with
  | nil => intro _ i; exact fourDigitsAt_nil i
  | cons c rest ih =>
    intro h i
    cases i with
    | zero =>
      rcases rest with _ | ⟨c2, _ | ⟨c3, _ | ⟨c4, rest4⟩⟩⟩ <;> first
        | rfl
        | (exfalso; simp at h; omega)
    | succ j =>
      rw [fourDigitsAt_succ]
      exact ih (by simp at h ⊢; omega) j

lemma first4Digits_some_len :
    ∀ cs r, first4Digits cs = some r → r.length = 4 := by
  intro cs
  induction cs with
  | nil => intro r h; simp [first4Digits] at h
  | cons c1 rest ih =>
    intro r h
    rcases rest with _ | ⟨c2, _ | ⟨c3, _ | ⟨c4, rest4⟩⟩⟩
    · simp [first4Digits] at h
    · simp [first4Digits] at h
    · simp [first4Digits] at h
    · rw [first4Digits] at h
      by_cases hd : (c1.isDigit && c2.isDigit && c3.isDigit && c4.isDigit) = true
      · rw [if_pos hd] at h
        cases h
        rfl
      · rw [if_neg hd] at h
        exact ih r h

lemma first4Digits_none_iff :
    ∀ cs : List Char, first4Digits cs = none ↔ ∀ i, fourDigitsAt cs i = false := by
  intro cs
  induction cs with
  | nil =>
    constructor
    · intro _ i; exact fourDigitsAt_nil i
    · intro _; rfl
  | cons c1 rest ih =>
    rcases rest with _ | ⟨c2, _ | ⟨c3, _ | ⟨c4, rest4⟩⟩⟩
    · exact ⟨fun _ i => fourDigitsAt_short _ (by simp) i, fun _ => rfl⟩
    · exact ⟨fun _ i => fourDigitsAt_short _ (by simp) i, fun _ => rfl⟩
    · exact ⟨fun _ i => fourDigitsAt_short _ (by simp) i, fun _ => rfl⟩
    · rw [first4Digits]
      by_cases hd : (c1.isDigit && c2.isDigit && c3.isDigit && c4.isDigit) = true
      · rw [if_pos hd]
        constructor
        · intro h; cases h
        · intro hall
          exfalso
          have h0 := hall 0
          rw [show fourDigitsAt (c1 :: c2 :: c3 :: c4 :: rest4) 0 =
            (c1.isDigit && c2.isDigit && c3.isDigit && c4.isDigit) from rfl, hd] at h0
          cases h0
      · rw [if_neg hd]
        rw [ih]
        constructor
        · intro h i
          cases i with
          | zero =>
            rw [show fourDigitsAt (c1 :: c2 :: c3 :: c4 :: rest4) 0 =
              (c1.isDigit && c2.isDigit && c3.isDigit && c4.isDigit) from rfl]
            exact Bool.not_eq_true _ ▸ (Bool.of_not_eq_true hd)
          | succ j => rw [fourDigitsAt_succ]; exact h j
        · intro h i
          have := h (i + 1)
          rwa [fourDigitsAt_succ] at this

lemma first4Digits_some_spec :
    ∀ cs r, first4Digits cs = some r →
      ∃ i, fourDigitsAt cs i = true ∧ (∀ j, j < i → fourDigitsAt cs j = false) ∧
        r = (cs.drop i).take 4 := by
  intro cs
  induction cs with
  | nil => intro r h; simp [first4Digits] at h
  | cons c1 rest ih =>
    intro r h
    rcases rest with _ | ⟨c2, _ | ⟨c3, _ | ⟨c4, rest4⟩⟩⟩
    · simp [first4Digits] at h
    · simp [first4Digits] at h
    · simp [first4Digits] at h
    · rw [first4Digits] at h
      by_cases hd : (c1.isDigit && c2.isDigit && c3.isDigit && c4.isDigit) = true
      · rw [if_pos hd] at h
        cases h
        refine ⟨0, hd, fun j hj => absurd hj (Nat.not_lt_zero j), rfl⟩
      · rw [if_neg hd] at h
        obtain ⟨i, hi, hmin, hr⟩ := ih r h
        refine ⟨i + 1, ?_, ?_, ?_⟩
        · rwa [fourDigitsAt_succ]
        · intro j hj
          cases j with
          | zero =>
            rw [show fourDigitsAt (c1 :: c2 :: c3 :: c4 :: rest4) 0 =
              (c1.isDigit && c2.isDigit && c3.isDigit && c4.isDigit) from rfl]
            exact Bool.not_eq_true _ ▸ (Bool.of_not_eq_true hd)
          | succ k =>
            rw [fourDigitsAt_succ]
            exact hmin k (by omega)
        · rw [List.drop_succ_cons]
          exact hr

/-! Claim C1. -/

/-- C1 counterexample: the Candidate Matcher's title check is not
bidirectional.  For the wanted record ("foo bar", "", "", "") and a candidate
whose title "foo" is a proper substring of the wanted title, with the author,
publisher and year checks all passing, the matcher returns no match. -/
theorem C1_cex :
    pyIn "foo" "foo bar" = true ∧
    "foo" ≠ "foo bar" ∧
    pyIn (pyLower "") (pyLower (pyStrip (Item.mk "foo" "" "" "" "" "").author)) = true ∧
    pyIn (pyLower "") (pyLower (pyStrip (Item.mk "foo" "" "" "" "" "").publisher)) = true ∧
    ("" : String) = extract_year (some (pyStrip (Item.mk "foo" "" "" "" "" "").pubdate)) ∧
    candidate_matches "foo bar" "" "" "" (Item.mk "foo" "" "" "" "" "") = false := by
  decide

/-- C1 (amended): the Candidate Matcher's title, author and publisher checks
are one-directional case-insensitive containment — the wanted field must be
a substring of the candidate field; author and publisher are treated as
satisfied when the wanted field is empty (the empty string is contained in
everything); the year check is exact equality.  `candidate_matches_spec`
states this rule literally; it coincides with the source condition. -/
theorem C1_thm (t a p y : String) (item : Item) :
    candidate_matches t a p y item = candidate_matches_spec t a p y item := by
  unfold candidate_matches candidate_matches_spec
  by_cases ha : a = ""
  · subst ha
    by_cases hp : p = ""
    · subst hp
      simp [pyIn_empty, pyLower_empty]
    · have hp' : (p == "") = false := beq_eq_false_iff_ne.mpr hp
      simp [pyIn_empty, pyLower_empty, hp']
  · have ha' : (a == "") = false := beq_eq_false_iff_ne.mpr ha
    by_cases hp : p = ""
    · subst hp
      simp [pyIn_empty, pyLower_empty, ha']
    · have hp' : (p == "") = false := beq_eq_false_iff_ne.mpr hp
      simp [ha', hp']

/-! Claim C4. -/

/-- C4 counterexample: the year check is not skipped when the wanted year is
empty.  A candidate whose raw publication date "20210301" extracts to the
non-empty year "2021" fails to match a wanted record with empty year even
though the title, author and publisher checks all pass. -/
theorem C4_cex :
    extract_year (some (pyStrip (Item.mk "abc" "" "" "20210301" "" "").pubdate)) = "2021" ∧
    pyIn (pyLower "abc")
      (pyLower (pyStrip (pyReplace (pyReplace (Item.mk "abc" "" "" "20210301" "" "").title
        "<b>" "") "</b>" ""))) = true ∧
    pyIn (pyLower "") (pyLower (pyStrip (Item.mk "abc" "" "" "20210301" "" "").author)) = true ∧
    pyIn (pyLower "")
      (pyLower (pyStrip (Item.mk "abc" "" "" "20210301" "" "").publisher)) = true ∧
    candidate_matches "abc" "" "" "" (Item.mk "abc" "" "" "20210301" "" "") = false := by
  decide

/-- C4 (amended): the year check is never skipped — every match requires the
wanted year to equal the candidate's extracted year exactly, so a wanted
record with empty year matches only candidates whose extracted year is also
empty. -/
theorem C4_thm (t a p y : String) (item : Item)
    (h : candidate_matches t a p y item = true) :
    y = extract_year (some (pyStrip item.pubdate)) := by
  unfold candidate_matches at h
  simp only [Bool.and_eq_true, beq_iff_eq] at h
  exact h.2

/-- C4 witness: the amended theorem applied at a concrete matching pair. -/
theorem C4_witness :
    ("2021" : String) =
      extract_year (some (pyStrip (Item.mk "abc" "" "" "2021-05-01" "" "").pubdate)) :=
  C4_thm "abc" "" "" "2021" (Item.mk "abc" "" "" "2021-05-01" "" "") (by decide)

/-! Claim C9. -/

/-- C9 counterexample: for the input "12345", whose only digit run is longer
than 4 digits, the Year Extractor returns "1234", not the empty string. -/
theorem C9_cex :
    extract_year (some "12345") ≠ "" ∧ extract_year (some "12345") = "1234" := by
  decide

/-- C9 (amended): the Year Extractor returns the 4 characters starting at
the first position of its (stripped) input where 4 consecutive decimal
digits occur — for a digit run longer than 4, the run's first 4 digits —
and the empty string when no 4 consecutive digits exist or the input is
absent/null; the spec's null and no-digit examples hold as stated. -/
theorem C9_thm :
    extract_year none = "" ∧
    extract_year (some "2021-03-01") = "2021" ∧
    extract_year (some "") = "" ∧
    extract_year (some "no year here") = "" ∧
    (∀ s : String, (extract_year (some s) = "" ↔
      ∀ i, fourDigitsAt (stripChars s.data) i = false)) ∧
    (∀ s : String, extract_year (some s) ≠ "" →
      ∃ i, fourDigitsAt (stripChars s.data) i = true ∧
        (∀ j, j < i → fourDigitsAt (stripChars s.data) j = false) ∧
        extract_year (some s) = String.mk (((stripChars s.data).drop i).take 4)) := by
  refine ⟨rfl, by decide, by decide, by decide, ?_, ?_⟩
  · intro s
    cases h : first4Digits (stripChars s.data) with
    | none =>
      constructor
      · intro _
        exact (first4Digits_none_iff _).mp h
      · intro _
        simp [extract_year, h]
    | some r =>
      simp only [extract_year, h]
      constructor
      · intro he
        exfalso
        have hr : r = [] := congrArg String.data he
        have := first4Digits_some_len _ _ h
        rw [hr] at this
        cases this
      · intro hall
        exfalso
        obtain ⟨i, hi, _, _⟩ := first4Digits_some_spec _ _ h
        rw [hall i] at hi
        cases hi
  · intro s hne
    cases h : first4Digits (stripChars s.data) with
    | none =>
      exfalso
      apply hne
      simp [extract_year, h]
    | some r =>
      obtain ⟨i, hi, hmin, hr⟩ := first4Digits_some_spec _ _ h
      refine ⟨i, hi, hmin, ?_⟩
      rw [← hr]
      simp [extract_year, h]

/-- C9 witness: the amended theorem's positional characterization applied to
the concrete input "x12345y". -/
theorem C9_witness :
    ∃ i, fourDigitsAt (stripChars "x12345y".data) i = true ∧
      (∀ j, j < i → fourDigitsAt (stripChars "x12345y".data) j = false) ∧
      extract_year (some "x12345y") =
        String.mk (((stripChars "x12345y".data).drop i).take 4) :=
  C9_thm.2.2.2.2.2 "x12345y" (by decide)

/-! Claim C2. -/

/-- C2 counterexample: a matched item whose identifier extraction yields
absence does not have that absence returned.  In `env_c2`'s single result
list the first item matches the wanted record but carries no 13-digit
identifier; the cascade skips it and returns the second item's identifier
instead of the first matched item's extraction result (`none`). -/
theorem C2_cex :
    candidate_matches "abc" "" "" "" item_abc_no_isbn = true ∧
    extract_isbn13 item_abc_no_isbn.isbn = none ∧
    (get_isbn13_from_title_author_pub env_c2 "abc" "" "" "" 5).1 =
      some "9781234567897" := by
  decide

/-- C2 (amended): when a lookup succeeds with at least one item, the items
are scanned in returned order against the full wanted record and the scan's
outcome terminates the cascade (no further queries run); the value returned
for the list is `process_items`, which yields the extracted identifier of
the first item that both matches and extracts successfully — a matched item
whose extraction yields absence is skipped rather than returned. -/
theorem C2_thm (env : Nat → Nat → Resp) (t a p y : String) (qi : Nat)
    (rest : List Nat) (first : Item) (tl : List Item)
    (h : env qi 0 = Resp.ok (first :: tl)) :
    run_queries env t a p y 5 (qi :: rest) =
      (process_items t a p y (first :: tl), [(qi, 0)]) ∧
    (∀ (item : Item) (itl : List Item) (s : String),
      candidate_matches t a p y item = true → extract_isbn13 item.isbn = some s →
      process_items t a p y (item :: itl) = some s) := by
  constructor
  · have hr : run_retries (env qi) t a p y 0 5 =
        (QueryOutcome.done (process_items t a p y (first :: tl)), [0]) :=
      run_retries_ok_cons (env qi) t a p y 4 first tl h
    simp [run_queries, hr]
  · intro item itl s hm he
    simp [process_items, scan_items, hm, he]

/-- C2 witness: the amended theorem applied to the concrete environment
`env_c2`. -/
theorem C2_witness :
    run_queries env_c2 "abc" "" "" "" 5 [0, 1, 2, 3] =
      (process_items "abc" "" "" "" [item_abc_no_isbn, item_abc_isbn], [(0, 0)]) ∧
    process_items "abc" "" "" "" [item_abc_isbn] = some "9781234567897" := by
  have h := C2_thm env_c2 "abc" "" "" "" 0 [1, 2, 3] item_abc_no_isbn [item_abc_isbn] rfl
  exact ⟨h.1, h.2 item_abc_isbn [] "9781234567897" (by decide) (by decide)⟩

/-! Claim C3. -/

/-- C3: (i) a query answered with a non-empty item list none of which
matches terminates the cascade with the first item's extracted identifier,
issuing no further network calls; (ii) a query answered with zero items
passes control to the next looser query; (iii) if all four queries answer
zero items the cascade's result is absence. -/
theorem C3_thm (env : Nat → Nat → Resp) (t a p y : String) :
    (∀ (qi : Nat) (rest : List Nat) (first : Item) (tl : List Item),
      env qi 0 = Resp.ok (first :: tl) →
      (∀ it ∈ first :: tl, candidate_matches t a p y it = false) →
      run_queries env t a p y 5 (qi :: rest) =
        (extract_isbn13 first.isbn, [(qi, 0)])) ∧
    (∀ (qi : Nat) (rest : List Nat), env qi 0 = Resp.ok [] →
      run_queries env t a p y 5 (qi :: rest) =
        ((run_queries env t a p y 5 rest).1,
          (qi, 0) :: (run_queries env t a p y 5 rest).2)) ∧
    ((∀ qi, qi < 4 → env qi 0 = Resp.ok []) →
      (get_isbn13_from_title_author_pub env t a p y 5).1 = none) := by
  refine ⟨?_, ?_, ?_⟩
  · intro qi rest first tl h hnone
    have hsc : scan_items t a p y (first :: tl) = none :=
      scan_items_none t a p y _ hnone
    have hpi : process_items t a p y (first :: tl) = extract_isbn13 first.isbn := by
      simp [process_items, hsc]
    have hr : run_retries (env qi) t a p y 0 5 =
        (QueryOutcome.done (process_items t a p y (first :: tl)), [0]) :=
      run_retries_ok_cons (env qi) t a p y 4 first tl h
    rw [hpi] at hr
    simp [run_queries, hr]
  · intro qi rest h
    have hr : run_retries (env qi) t a p y 0 5 = (QueryOutcome.next, [0]) :=
      run_retries_ok_nil (env qi) t a p y 4 h
    simp [run_queries, hr]
  · intro h
    have h0 : run_retries (env 0) t a p y 0 5 = (QueryOutcome.next, [0]) :=
      run_retries_ok_nil (env 0) t a p y 4 (h 0 (by omega))
    have h1 : run_retries (env 1) t a p y 0 5 = (QueryOutcome.next, [0]) :=
      run_retries_ok_nil (env 1) t a p y 4 (h 1 (by omega))
    have h2 : run_retries (env 2) t a p y 0 5 = (QueryOutcome.next, [0]) :=
      run_retries_ok_nil (env 2) t a p y 4 (h 2 (by omega))
    have h3 : run_retries (env 3) t a p y 0 5 = (QueryOutcome.next, [0]) :=
      run_retries_ok_nil (env 3) t a p y 4 (h 3 (by omega))
    simp [get_isbn13_from_title_author_pub, run_queries, h0, h1, h2, h3]

/-- C3 witness: the first clause of the theorem applied to the concrete
environment `env_c3`, whose tightest query returns one non-matching item. -/
theorem C3_witness :
    run_queries env_c3 "abc" "" "" "" 5 [0, 1, 2, 3] =
      (extract_isbn13 item_zzz.isbn, [(0, 0)]) :=
  (C3_thm env_c3 "abc" "" "" "").1 0 [1, 2, 3] item_zzz [] rfl (by decide)

/-! Claim C5. -/

/-- C5 counterexample: exhausting the retry bound on a run of HTTP 429
responses yields `none` from `get_book_info_by_isbn13`, the very same value
returned for a successful response with zero items — the two outcomes are
not distinguishable. -/
theorem C5_cex :
    get_book_info_by_isbn13 env_rl 5 = get_book_info_by_isbn13 env_empty 5 ∧
    get_book_info_by_isbn13 env_rl 5 = none := by
  decide

/-- C5 (amended): a run of rate-limit responses exceeding the bounded
maximum attempt count (5) yields `none`, which is the same value as a
successful response with zero items (not distinguishable from it); in the
cascade, exhausting the retries of one query falls through to the next
looser query, exactly as a zero-item response does. -/
theorem C5_thm :
    (∀ env : Nat → Resp, (∀ k, k < 5 → env k = Resp.rateLimited) →
      get_book_info_by_isbn13 env 5 = none) ∧
    (∀ env : Nat → Resp, env 0 = Resp.ok [] →
      get_book_info_by_isbn13 env 5 = none) ∧
    (∀ (env : Nat → Nat → Resp) (t a p y : String) (qi : Nat) (rest : List Nat),
      (∀ k, k < 5 → env qi k = Resp.rateLimited) →
      (run_queries env t a p y 5 (qi :: rest)).1 =
        (run_queries env t a p y 5 rest).1) := by
  refine ⟨?_, ?_, ?_⟩
  · intro env h
    exact book_info_loop_rl env 5 0 (fun k hk => by simpa using h k hk)
  · intro env h
    show book_info_loop env 0 5 = none
    have h5 : book_info_loop env 0 (4 + 1) = none := by simp [book_info_loop, h]
    exact h5
  · intro env t a p y qi rest h
    have hnext : (run_retries (env qi) t a p y 0 5).1 = QueryOutcome.next :=
      run_retries_rl_next (env qi) t a p y 5 0 (fun k hk => by simpa using h k hk)
    cases hrr : run_retries (env qi) t a p y 0 5 with
    | mk o tr =>
      rw [hrr] at hnext
      simp only at hnext
      subst hnext
      simp [run_queries, hrr]

/-- C5 witness: the amended theorem applied to the all-429 and the
zero-item environments. -/
theorem C5_witness :
    get_book_info_by_isbn13 env_rl 5 = none ∧
    get_book_info_by_isbn13 env_empty 5 = none :=
  ⟨C5_thm.1 env_rl (fun _ _ => rfl), C5_thm.2.1 env_empty rfl⟩

/-! Claim C6. -/

lemma assocFind_cons_eq (k0 : String × String × String × String) (v0 : Option String)
    (c : List ((String × String × String × String) × Option String))
    (k : String × String × String × String) :
    assocFind ((k0, v0) :: c) k = if k0 = k then some v0 else assocFind c k := rfl

lemma assocFind_cons_none {k0 : String × String × String × String} {v0 : Option String}
    {c : List ((String × String × String × String) × Option String)}
    {k : String × String × String × String}
    (hn : assocFind ((k0, v0) :: c) k = none) :
    k0 ≠ k ∧ assocFind c k = none := by
  by_cases h : k0 = k
  · rw [assocFind_cons_eq, if_pos h] at hn
    cases hn
  · rw [assocFind_cons_eq, if_neg h] at hn
    exact ⟨h, hn⟩

lemma assocFind_mem :
    ∀ (c : List ((String × String × String × String) × Option String))
      (k : String × String × String × String) (v : Option String),
      assocFind c k = some v → (k, v) ∈ c := by
  intro c
  induction c with
  | nil => intro k v h; cases h
  | cons kv rest ih =>
    intro k v h
    obtain ⟨k0, v0⟩ := kv
    by_cases he : k0 = k
    · rw [assocFind_cons_eq, if_pos he] at h
      cases h
      subst he
      exact List.mem_cons_self _ _
    · rw [assocFind_cons_eq, if_neg he] at h
      exact List.mem_cons_of_mem _ (ih k v h)

lemma feature1_loop_spec (resolver : String → String → String → String → Option String) :
    ∀ (rows : List ConvertRow)
      (cache : List ((String × String × String × String) × Option String)),
      (∀ kv ∈ cache, kv.2 = resolveKey resolver kv.1) →
      (feature1_loop resolver rows cache).1 = rows.map (feature1_row_out resolver) ∧
      (feature1_loop resolver rows cache).2.Nodup ∧
      (∀ k ∈ (feature1_loop resolver rows cache).2, assocFind cache k = none) := by
  intro rows
  induction rows with
  | nil =>
    intro cache _
    exact ⟨rfl, List.nodup_nil, by intro k hk; cases hk⟩
  | cons row rest ih =>
    intro cache hc
    by_cases ht : normCell row.title = ""
    · have hre := ih cache hc
      refine ⟨?_, ?_, ?_⟩
      · simp [feature1_loop, ht, feature1_row_out, hre.1]
      · simpa [feature1_loop, ht] using hre.2.1
      · intro k hk
        apply hre.2.2
        simpa [feature1_loop, ht] using hk
    · cases hf : assocFind cache (normCell row.title, normCell row.author,
        normCell row.publisher, extract_year row.pubYear) with
      | some v =>
        have hv : v = resolveKey resolver (normCell row.title, normCell row.author,
            normCell row.publisher, extract_year row.pubYear) :=
          hc _ (assocFind_mem cache _ v hf)
        have hre := ih cache hc
        refine ⟨?_, ?_, ?_⟩
        · simp [feature1_loop, ht, hf, feature1_row_out, hre.1, hv, resolveKey]
        · simpa [feature1_loop, ht, hf] using hre.2.1
        · intro k hk
          apply hre.2.2
          simpa [feature1_loop, ht, hf] using hk
      | none =>
        have hc' : ∀ kv ∈ ((normCell row.title, normCell row.author,
            normCell row.publisher, extract_year row.pubYear),
              resolver (normCell row.title) (normCell row.author)
                (normCell row.publisher) (extract_year row.pubYear)) :: cache,
            kv.2 = resolveKey resolver kv.1 := by
          intro kv hkv
          cases hkv with
          | head => rfl
          | tail _ hmem => exact hc _ hmem
        have hre := ih (((normCell row.title, normCell row.author,
            normCell row.publisher, extract_year row.pubYear),
              resolver (normCell row.title) (normCell row.author)
                (normCell row.publisher) (extract_year row.pubYear)) :: cache) hc'
        have hnotmem : (normCell row.title, normCell row.author,
            normCell row.publisher, extract_year row.pubYear) ∉
            (feature1_loop resolver rest (((normCell row.title, normCell row.author,
              normCell row.publisher, extract_year row.pubYear),
                resolver (normCell row.title) (normCell row.author)
                  (normCell row.publisher) (extract_year row.pubYear)) :: cache)).2 := by
          intro hmem
          have := hre.2.2 _ hmem
          rw [assocFind_cons_eq, if_pos rfl] at this
          cases this
        refine ⟨?_, ?_, ?_⟩
        · simp [feature1_loop, ht, hf, feature1_row_out, hre.1]
        · simp only [feature1_loop, ht, hf]
          simp only [Bool.false_eq_true, if_false]
          exact List.nodup_cons.mpr ⟨hnotmem, hre.2.1⟩
        · intro k hk
          simp only [feature1_loop, ht, hf] at hk
          simp only [Bool.false_eq_true, if_false] at hk
          rcases List.mem_cons.mp hk with hk | hk
          · subst hk
            exact hf
          · exact (assocFind_cons_none (hre.2.2 _ hk)).2

/-- C6: within one batch run of the convert workflow, the resolver is
invoked on pairwise distinct cache keys (at most one cascade execution per
normalized fingerprint), and every row's output is a function of its
fingerprint alone, so a second row with the same fingerprint receives the
same stored value — including the not-found outcome rendered as the
"no info" marker. -/
theorem C6_thm (resolver : String → String → String → String → Option String)
    (rows : List ConvertRow) :
    (run_feature_1 resolver rows).1 = rows.map (feature1_row_out resolver) ∧
    (run_feature_1 resolver rows).2.Nodup := by
  have h := feature1_loop_spec resolver rows [] (by intro kv hkv; cases hkv)
  exact ⟨h.1, h.2.1⟩

/-! Claim C7. -/

/-- C7: a verify row whose 13-digit identifier field is empty or shorter
than 13 characters gets the CannotSearch verdict, the fixed "not entered"
marker (no list of mismatched field names), and no remote lookup is
performed for it. -/
theorem C7_thm (lookup : String → Option BookInfo) (row : VerifyRow)
    (h : normCell row.isbn13 = "" ∨ (normCell row.isbn13).length < 13) :
    run_feature_2_row lookup row =
      { match_col := "검색 불가(ISBN13 없음)", mismatch_col := "ISBN13 미입력",
        network := false } := by
  simp only [run_feature_2_row]
  rw [if_pos h]

/-- C7 witness: the theorem applied to the concrete row with original
identifier "123" (length 3). -/
theorem C7_witness :
    run_feature_2_row lookup_none row_c7 =
      { match_col := "검색 불가(ISBN13 없음)", mismatch_col := "ISBN13 미입력",
        network := false } :=
  C7_thm lookup_none row_c7 (Or.inr (by decide))

/-! Claim C8. -/

lemma if_single_sublist (c : Prop) [Decidable c] (x : String) :
    List.Sublist (if c then [x] else []) [x] := by
  split
  · exact List.Sublist.refl _
  · exact List.nil_sublist _

/-- C8: when the canonical record is fetched, the verdict is Match iff no
compared field is flagged, otherwise Mismatch with the flagged field names
joined in the fixed order title, author, publisher, year, price (the flag
list is always a sublist of that order); price mismatches use exact trimmed
string equality.  The claim's concrete example is checked in the witness. -/
theorem C8_thm (lookup : String → Option BookInfo) (row : VerifyRow) (bi : BookInfo)
    (hok : ¬(normCell row.isbn13 = "" ∨ (normCell row.isbn13).length < 13))
    (hl : lookup (normCell row.isbn13) = some bi) :
    ((run_feature_2_row lookup row).match_col = "일치" ↔ row_mismatches row bi = []) ∧
    (row_mismatches row bi = [] →
      run_feature_2_row lookup row =
        { match_col := "일치", mismatch_col := "", network := true }) ∧
    (row_mismatches row bi ≠ [] →
      run_feature_2_row lookup row =
        { match_col := "불일치",
          mismatch_col := String.intercalate "," (row_mismatches row bi),
          network := true }) ∧
    List.Sublist (row_mismatches row bi) ["도서명", "저자", "출판사", "출간연도", "정가"] := by
  have hrun : run_feature_2_row lookup row =
      (if row_mismatches row bi = [] then
        { match_col := "일치", mismatch_col := "", network := true }
      else
        { match_col := "불일치",
          mismatch_col := String.intercalate "," (row_mismatches row bi),
          network := true }) := by
    simp only [run_feature_2_row]
    rw [if_neg hok, hl]
    rfl
  refine ⟨?_, ?_, ?_, ?_⟩
  · rw [hrun]
    by_cases hml : row_mismatches row bi = []
    · rw [if_pos hml]
      simp [hml]
    · rw [if_neg hml]
      constructor
      · intro hcontra
        have hstr : ("불일치" : String) = "일치" := hcontra
        exact absurd hstr (by decide)
      · intro h'
        exact absurd h' hml
  · intro hml
    rw [hrun, if_pos hml]
  · intro hml
    rw [hrun, if_neg hml]
  · show List.Sublist (row_mismatches row bi)
      ((((["도서명"] ++ ["저자"]) ++ ["출판사"]) ++ ["출간연도"]) ++ ["정가"])
    unfold row_mismatches mismatch_fields
    refine List.Sublist.append
      (List.Sublist.append
        (List.Sublist.append
          (List.Sublist.append (if_single_sublist _ _) (if_single_sublist _ _))
          (if_single_sublist _ _))
        (if_single_sublist _ _))
      (if_single_sublist _ _)

/-- C8 witness: the theorem applied to the claim's concrete example —
original {title: "Foo", price: "10000"} against fetched
{title: "Foo Bar", price: "12000"} gives Mismatch with exactly the price
field flagged. -/
theorem C8_witness :
    run_feature_2_row lookup_foo row_foo =
      { match_col := "불일치", mismatch_col := "정가", network := true } ∧
    row_mismatches row_foo bi_foo = ["정가"] := by
  have h := C8_thm lookup_foo row_foo bi_foo (by decide) rfl
  have hm : row_mismatches row_foo bi_foo = ["정가"] := by decide
  have h2 := h.2.2.1 (by rw [hm]; exact List.cons_ne_nil _ _)
  rw [h2, hm]
  exact ⟨by decide, rfl⟩

/-! Claim C10. -/

/-- C10: the reconciliation outputs for a verify row do not depend on the
row's 10-digit identifier field — replacing it leaves the verdict column,
the mismatch column and the network behaviour unchanged (the field is read
but never used). -/
theorem C10_thm (lookup : String → Option BookInfo) (row : VerifyRow)
    (v : Option String) :
    run_feature_2_row lookup { row with isbn10 := v } =
      run_feature_2_row lookup row := by
  cases row
  rfl

end IsbnSearch
